import Mathlib

/-
Verification of the resilience and health-monitoring layer:
`src/utils/graceful_degradation.py`, `src/utils/error_handler.py`
(`ErrorCollector`) and `src/utils/health_monitor.py`.

The Python classes are shallowly embedded as Lean structures, and the
stateful methods as pure functions from the old state (plus the inputs the
method reads from the outside world: the clock value, the outcome of the
wrapped operation, the system-metrics read) to the new state and result.
Python floats (timestamps, durations, percentages) are modelled as ℚ;
Python exceptions as an explicit `PyExc` type carried in `Except`.
-/

namespace Spec2Proof

/-! ## graceful_degradation.py — data model -/

/-- `ServiceStatus` enum (graceful_degradation.py lines 16-21). -/
inductive ServiceStatus where
  | healthy
  | degraded
  | failed
  | recovering
deriving DecidableEq

/-- `ServiceConfig` dataclass (lines 23-30).  `failure_window` is carried but
never read by the code. -/
structure ServiceConfig where
  name : String
  max_failures : Nat
  failure_window : Nat
  recovery_time : ℚ
  fallback_enabled : Bool
deriving DecidableEq

/-- Python exceptions, as far as the degradation layer distinguishes them:
`ServiceUnavailableError` (line 79) versus everything else. -/
inductive PyExc where
  | serviceUnavailable (msg : String)
  | other (name msg : String)
deriving DecidableEq

/-- Mutable state of a `CircuitBreaker` instance (lines 35-40). -/
structure CircuitBreaker where
  config : ServiceConfig
  failure_count : Nat
  last_failure_time : ℚ
  status : ServiceStatus
deriving DecidableEq

/-- `CircuitBreaker.__init__` (lines 35-40). -/
def CircuitBreaker.init (config : ServiceConfig) : CircuitBreaker :=
  { config := config
    failure_count := 0
    last_failure_time := 0
    status := ServiceStatus.healthy }

/-- Result of one `CircuitBreaker.call`: the value returned or exception
re-raised, the breaker state afterwards, and whether the wrapped operation
was actually invoked (false exactly on the short-circuit path). -/
structure CallOut (α : Type) where
  result : Except PyExc α
  state : CircuitBreaker
  invoked : Bool

/-- The `try`/`except` part of `CircuitBreaker.call` (lines 53-77): the
operation is invoked; on success failure_count resets to 0 and status goes
HEALTHY; on exception failure_count increments, last_failure_time is set to
the current time, status goes FAILED when failure_count ≥ max_failures and
DEGRADED otherwise, and the exception is re-raised unchanged. -/
def CircuitBreaker.runOp {α : Type} (b : CircuitBreaker) (now : ℚ)
    (op : Except PyExc α) : CallOut α :=
  match op with
  | Except.ok a =>
      { result := Except.ok a
        state := { b with failure_count := 0, status := ServiceStatus.healthy }
        invoked := true }
  | Except.error e =>
      let fc := b.failure_count + 1
      let st := if b.config.max_failures ≤ fc then ServiceStatus.failed
                else ServiceStatus.degraded
      { result := Except.error e
        state := { b with failure_count := fc, last_failure_time := now,
                          status := st }
        invoked := true }

/-- `CircuitBreaker.call` (lines 42-77).  `op` is the outcome the wrapped
`func(*args, **kwargs)` would have on this call; `now` is `time.time()`.
When status is FAILED the gate (lines 46-51) either moves to RECOVERING
(strictly more than `recovery_time` seconds after the last failure) or
raises `ServiceUnavailableError` without invoking the operation. -/
def CircuitBreaker.call {α : Type} (b : CircuitBreaker) (now : ℚ)
    (op : Except PyExc α) : CallOut α :=
  if b.status = ServiceStatus.failed then
    if now - b.last_failure_time > b.config.recovery_time then
      CircuitBreaker.runOp { b with status := ServiceStatus.recovering } now op
    else
      { result := Except.error (PyExc.serviceUnavailable
            ("Servicio " ++ b.config.name ++ " no disponible"))
        state := b
        invoked := false }
  else
    CircuitBreaker.runOp b now op

/-- Effect of `GracefulDegradation.mark_service_unavailable` (lines 120-123)
on the named breaker: status forced to FAILED, failure_count forced to
max_failures, last_failure_time set to now. -/
def CircuitBreaker.mark_unavailable (b : CircuitBreaker) (now : ℚ) :
    CircuitBreaker :=
  { b with status := ServiceStatus.failed
           failure_count := b.config.max_failures
           last_failure_time := now }

/-! ## graceful_degradation.py — manager level -/

/-- In-place update of a Python-dict-like association list: if the key is
present, its value is replaced at its position; otherwise the pair is
appended (Python dict insertion order). -/
def setEntry {β : Type} : List (String × β) → String → β → List (String × β)
  | [], k, v => [(k, v)]
  | (k0, v0) :: rest, k, v =>
      if k0 = k then (k, v) :: rest else (k0, v0) :: setEntry rest k v

/-- `GracefulDegradation.can_operate_in_degraded_mode` (lines 99-111):
with no registered service, true; otherwise count services whose status is
HEALTHY or DEGRADED or that have a fallback registered, and require the
count positive.  `services` is the `self.services` registry and
`fallback_handlers` the keys of `self.fallback_handlers`. -/
def can_operate_in_degraded_mode (services : List (String × CircuitBreaker))
    (fallback_handlers : List String) : Bool :=
  if services = [] then
    true
  else
    let available_services := services.countP (fun p =>
      (p.2.status == ServiceStatus.healthy ||
       p.2.status == ServiceStatus.degraded ||
       fallback_handlers.contains p.1))
    decide (0 < available_services)

/-- Outcome of `GracefulDegradation.call_service`: the operation's own
result, the registered fallback's result, or a re-raised exception. -/
inductive SvcOutcome (α : Type) where
  | ok (a : α)
  | usedFallback (a : α)
  | raised (e : PyExc)
deriving DecidableEq

/-- `GracefulDegradation.call_service` (lines 148-174).  `op` is the
outcome the wrapped `func` would have if invoked on this call, and
`fallback_handlers name` the value the registered fallback for `name`
would return (none when no fallback is registered).  Unregistered names
are called directly; otherwise the breaker's `call` runs, a raised
`ServiceUnavailableError` is replaced by the fallback whenever one is
registered, and any other exception is replaced by the fallback only when
`fallback_enabled` holds for the service's config. -/
def GracefulDegradation.call_service {α : Type}
    (services : List (String × CircuitBreaker))
    (fallback_handlers : String → Option α) (service_name : String)
    (now : ℚ) (op : Except PyExc α) :
    List (String × CircuitBreaker) × SvcOutcome α :=
  match services.lookup service_name with
  | none =>
      (services, match op with
        | Except.ok a => SvcOutcome.ok a
        | Except.error e => SvcOutcome.raised e)
  | some circuit_breaker =>
      let out := circuit_breaker.call now op
      let services1 := setEntry services service_name out.state
      match out.result with
      | Except.ok a => (services1, SvcOutcome.ok a)
      | Except.error e =>
          match e with
          | PyExc.serviceUnavailable _ =>
              match fallback_handlers service_name with
              | some fb => (services1, SvcOutcome.usedFallback fb)
              | none => (services1, SvcOutcome.raised e)
          | PyExc.other _ _ =>
              match fallback_handlers service_name with
              | some fb =>
                  if circuit_breaker.config.fallback_enabled then
                    (services1, SvcOutcome.usedFallback fb)
                  else
                    (services1, SvcOutcome.raised e)
              | none => (services1, SvcOutcome.raised e)

/-! ## error_handler.py — ErrorCollector -/

/-- The dict built at the top of `ErrorCollector.add_error`
(error_handler.py lines 154-167).  Building it from the Python exception
object (`type(error).__name__`, `str(error)`, `datetime.now()`,
`traceback.format_exc()`, and the `error_code`/`details` extras for
`AgentError`) happens outside the collector state; the record itself is
what the collector stores.  `type` is `type(error).__name__`. -/
structure ErrorRecord where
  timestamp : String
  type : String
  message : String
  context : String
  traceback : Option String
  error_code : Option String
  details : Option String
deriving DecidableEq

/-- `ErrorCollector` state (lines 147-150). -/
structure ErrorCollector where
  max_errors : Nat
  errors : List ErrorRecord
  error_counts : List (String × Nat)
deriving DecidableEq

/-- `ErrorCollector.__init__` (lines 147-150); the Python default for
`max_errors` is 1000. -/
def ErrorCollector.init (max_errors : Nat) : ErrorCollector :=
  { max_errors := max_errors, errors := [], error_counts := [] }

/-- `self.error_counts[t] = self.error_counts.get(t, 0) + 1` on the
insertion-ordered dict (line 177). -/
def bumpCount : List (String × Nat) → String → List (String × Nat)
  | [], t => [(t, 1)]
  | (k, v) :: rest, t =>
      if k = t then (k, v + 1) :: rest else (k, v) :: bumpCount rest t

/-- dict lookup with default 0: `error_counts.get(t, 0)`. -/
def countValue (m : List (String × Nat)) (t : String) : Nat :=
  (m.lookup t).getD 0

/-- `ErrorCollector.add_error` (lines 152-177): append the record, pop the
oldest when the buffer exceeds `max_errors`, and bump the per-type
counter. -/
def ErrorCollector.add_error (c : ErrorCollector) (r : ErrorRecord) :
    ErrorCollector :=
  let errors1 := c.errors ++ [r]
  let errors2 := if c.max_errors < errors1.length then errors1.tail else errors1
  { c with errors := errors2, error_counts := bumpCount c.error_counts r.type }

/-- A sequence of `add_error` calls, oldest first. -/
def ErrorCollector.add_all (c : ErrorCollector) (l : List ErrorRecord) :
    ErrorCollector :=
  l.foldl ErrorCollector.add_error c

/-- The dict returned by `ErrorCollector.get_error_summary`
(lines 179-185). -/
structure ErrorSummary where
  total_errors : Nat
  error_counts : List (String × Nat)
  recent_errors : List ErrorRecord
deriving DecidableEq

/-- `ErrorCollector.get_error_summary` (lines 179-185): `len(self.errors)`,
a copy of the counter dict, and `self.errors[-10:]` (empty when the buffer
is empty). -/
def ErrorCollector.get_error_summary (c : ErrorCollector) : ErrorSummary :=
  { total_errors := c.errors.length
    error_counts := c.error_counts
    recent_errors :=
      if c.errors = [] then [] else c.errors.drop (c.errors.length - 10) }

/-! ## health_monitor.py -/

/-- `APIMetrics` dataclass (health_monitor.py lines 35-44). -/
structure APIMetrics where
  service_name : String
  total_calls : Nat
  successful_calls : Nat
  failed_calls : Nat
  avg_response_time : ℚ
  last_error : Option String
  last_success : String
deriving DecidableEq

/-- `HealthMetrics` dataclass (lines 21-33). -/
structure HealthMetrics where
  timestamp : String
  cpu_percent : ℚ
  memory_percent : ℚ
  memory_available_mb : ℚ
  disk_usage_percent : ℚ
  uptime_seconds : ℚ
  active_connections : Nat
  error_rate : ℚ
  api_response_time_avg : ℚ
  status : String
deriving DecidableEq

/-- `self.thresholds` (lines 63-74). -/
structure Thresholds where
  cpu_warning : ℚ
  cpu_critical : ℚ
  memory_warning : ℚ
  memory_critical : ℚ
  disk_warning : ℚ
  disk_critical : ℚ
  error_rate_warning : ℚ
  error_rate_critical : ℚ
  response_time_warning : ℚ
  response_time_critical : ℚ
deriving DecidableEq

/-- The default threshold values from `HealthMonitor.__init__`. -/
def defaultThresholds : Thresholds :=
  { cpu_warning := 70
    cpu_critical := 90
    memory_warning := 80
    memory_critical := 95
    disk_warning := 85
    disk_critical := 95
    error_rate_warning := 5
    error_rate_critical := 15
    response_time_warning := 5
    response_time_critical := 10 }

/-- `HealthMonitor` state (lines 49-74), restricted to the fields the
methods below read or write. -/
structure HealthMonitor where
  check_interval : Nat
  error_collector : ErrorCollector
  api_metrics : List (String × APIMetrics)
  health_history : List HealthMetrics
  max_history : Nat
  thresholds : Thresholds
deriving DecidableEq

/-- `HealthMonitor.__init__` (lines 49-74). -/
def HealthMonitor.init (check_interval : Nat) : HealthMonitor :=
  { check_interval := check_interval
    error_collector := ErrorCollector.init 1000
    api_metrics := []
    health_history := []
    max_history := 100
    thresholds := defaultThresholds }

/-- The successful reads of the system-metrics sources inside
`collect_metrics` (psutil CPU/memory/disk/connections plus the uptime
computation, lines 122-133). -/
structure SysSample where
  cpu_percent : ℚ
  memory_percent : ℚ
  memory_available_mb : ℚ
  disk_usage_percent : ℚ
  uptime_seconds : ℚ
  active_connections : Nat
deriving DecidableEq

/-- `HealthMonitor._calculate_error_rate` (lines 204-214). -/
def HealthMonitor.calculate_error_rate (m : HealthMonitor) : ℚ :=
  let total_errors := (m.error_collector.error_counts.map Prod.snd).sum
  let total_operations := (m.api_metrics.map (fun p => p.2.total_calls)).sum
  if total_operations = 0 then 0
  else ((total_errors : ℚ) / (total_operations : ℚ)) * 100

/-- `HealthMonitor._calculate_avg_response_time` (lines 216-222). -/
def HealthMonitor.calculate_avg_response_time (m : HealthMonitor) : ℚ :=
  if m.api_metrics = [] then 0
  else
    let total_time := (m.api_metrics.map (fun p => p.2.avg_response_time)).sum
    total_time / (m.api_metrics.length : ℚ)

/-- `HealthMonitor._determine_health_status` (lines 224-243). -/
def HealthMonitor.determine_health_status (t : Thresholds)
    (cpu memory disk error_rate response_time : ℚ) : String :=
  if cpu ≥ t.cpu_critical ∨ memory ≥ t.memory_critical ∨
     disk ≥ t.disk_critical ∨ error_rate ≥ t.error_rate_critical ∨
     response_time ≥ t.response_time_critical then
    "critical"
  else if cpu ≥ t.cpu_warning ∨ memory ≥ t.memory_warning ∨
          disk ≥ t.disk_warning ∨ error_rate ≥ t.error_rate_warning ∨
          response_time ≥ t.response_time_warning then
    "warning"
  else
    "healthy"

/-- `HealthMonitor.collect_metrics` (lines 118-173).  `sys` holds the
system-metrics reads when they all succeed, or the exception message when
any of them raises; in the latter case the `except` branch (lines 160-173)
returns the degraded sample instead of propagating. -/
def HealthMonitor.collect_metrics (m : HealthMonitor) (now_iso : String)
    (sys : Except String SysSample) : HealthMetrics :=
  match sys with
  | Except.ok s =>
      let error_rate := m.calculate_error_rate
      let avg_response_time := m.calculate_avg_response_time
      { timestamp := now_iso
        cpu_percent := s.cpu_percent
        memory_percent := s.memory_percent
        memory_available_mb := s.memory_available_mb
        disk_usage_percent := s.disk_usage_percent
        uptime_seconds := s.uptime_seconds
        active_connections := s.active_connections
        error_rate := error_rate
        api_response_time_avg := avg_response_time
        status := HealthMonitor.determine_health_status m.thresholds
          s.cpu_percent s.memory_percent s.disk_usage_percent
          error_rate avg_response_time }
  | Except.error _ =>
      { timestamp := now_iso
        cpu_percent := 0
        memory_percent := 0
        memory_available_mb := 0
        disk_usage_percent := 0
        uptime_seconds := 0
        active_connections := 0
        error_rate := 100
        api_response_time_avg := 0
        status := "critical" }

/-- One iteration of `HealthMonitor._monitoring_loop` (lines 98-116):
collect a sample, append it to `health_history`, pop the oldest entry when
the history exceeds `max_history`. -/
def HealthMonitor.monitoring_step (m : HealthMonitor) (now_iso : String)
    (sys : Except String SysSample) : HealthMonitor :=
  let metrics := m.collect_metrics now_iso sys
  let hist := m.health_history ++ [metrics]
  { m with health_history :=
      if m.max_history < hist.length then hist.tail else hist }

/-- `HealthMonitor.record_api_call` (lines 175-202).  `now_iso` is
`datetime.now().isoformat()`. -/
def HealthMonitor.record_api_call (m : HealthMonitor) (service : String)
    (success : Bool) (response_time : ℚ) (error : Option String)
    (now_iso : String) : HealthMonitor :=
  let metrics0 :=
    match m.api_metrics.lookup service with
    | some a => a
    | none =>
        { service_name := service
          total_calls := 0
          successful_calls := 0
          failed_calls := 0
          avg_response_time := 0
          last_error := none
          last_success := now_iso }
  let metrics1 := { metrics0 with total_calls := metrics0.total_calls + 1 }
  let metrics2 :=
    if success then
      { metrics1 with successful_calls := metrics1.successful_calls + 1
                      last_success := now_iso }
    else
      { metrics1 with failed_calls := metrics1.failed_calls + 1
                      last_error := error }
  let metrics3 := { metrics2 with avg_response_time :=
      (metrics2.avg_response_time * ((metrics2.total_calls - 1 : Nat) : ℚ)
        + response_time) / (metrics2.total_calls : ℚ) }
  { m with api_metrics := setEntry m.api_metrics service metrics3 }

/-! ## Shared helper lemmas and concrete fixtures -/

/-- `runOp` always invokes the wrapped operation. -/
theorem CircuitBreaker.runOp_invoked {α : Type} (b : CircuitBreaker) (now : ℚ)
    (op : Except PyExc α) : (CircuitBreaker.runOp b now op).invoked = true := by
  cases op <;> rfl

/-- The default `anthropic` service configuration from
`setup_default_services` (graceful_degradation.py lines 289-295). -/
def anthropicConfig : ServiceConfig :=
  { name := "anthropic"
    max_failures := 3
    failure_window := 300
    recovery_time := 60
    fallback_enabled := true }

/-- A breaker that has just tripped: three failures recorded, FAILED, last
failure at time 0. -/
def failedBreaker : CircuitBreaker :=
  { config := anthropicConfig
    failure_count := 3
    last_failure_time := 0
    status := ServiceStatus.failed }

/-! ## C1 — FAILED-state gate of `CircuitBreaker.call` -/

/-- C1 counterexample: at elapsed time exactly equal to `recovery_time`
(now = 60, last_failure_time = 0, recovery_time = 60) the claim says the
breaker transitions to RECOVERING and invokes the operation, but the code
(line 47, strict `>`) short-circuits: the operation is not invoked and the
status does not move to RECOVERING. -/
theorem c1_boundary_counterexample :
    failedBreaker.status = ServiceStatus.failed ∧
    (60 : ℚ) - failedBreaker.last_failure_time ≥ failedBreaker.config.recovery_time ∧
    (failedBreaker.call 60 (Except.ok (0 : Nat))).invoked = false ∧
    (failedBreaker.call 60 (Except.ok (0 : Nat))).state.status ≠
      ServiceStatus.recovering := by
  refine ⟨rfl, by norm_num [failedBreaker, anthropicConfig], ?_, ?_⟩ <;>
    simp [CircuitBreaker.call, failedBreaker, anthropicConfig]

/-- C1 (amended): for a FAILED breaker, a call made when
now − last_failure_time ≤ recovery_time raises ServiceUnavailable
immediately, leaves the state unchanged and never invokes the wrapped
operation; a call made when now − last_failure_time > recovery_time (the
boundary case elapsed = recovery_time still short-circuits) first
transitions the breaker to RECOVERING and then invokes the operation. -/
theorem c1_failed_gate {α : Type} (b : CircuitBreaker) (now : ℚ)
    (op : Except PyExc α) (h : b.status = ServiceStatus.failed) :
    (now - b.last_failure_time ≤ b.config.recovery_time →
      (b.call now op).invoked = false ∧
      (b.call now op).state = b ∧
      (b.call now op).result = Except.error (PyExc.serviceUnavailable
        ("Servicio " ++ b.config.name ++ " no disponible"))) ∧
    (b.config.recovery_time < now - b.last_failure_time →
      (b.call now op).invoked = true ∧
      b.call now op =
        CircuitBreaker.runOp { b with status := ServiceStatus.recovering } now op) := by
  constructor
  · intro hle
    have hlt : ¬ (now - b.last_failure_time > b.config.recovery_time) :=
      not_lt.mpr hle
    simp [CircuitBreaker.call, h, hlt]
  · intro hgt
    have hgt' : now - b.last_failure_time > b.config.recovery_time := hgt
    simp [CircuitBreaker.call, h, hgt', CircuitBreaker.runOp_invoked]

/-- C1 witness: the amended theorem applied to `failedBreaker` at time
100 with a succeeding operation. -/
theorem c1_failed_gate_witness :
    failedBreaker.status = ServiceStatus.failed ∧
    (((100 : ℚ) - failedBreaker.last_failure_time ≤
        failedBreaker.config.recovery_time →
      (failedBreaker.call 100 (Except.ok (0 : Nat))).invoked = false ∧
      (failedBreaker.call 100 (Except.ok (0 : Nat))).state = failedBreaker ∧
      (failedBreaker.call 100 (Except.ok (0 : Nat))).result =
        Except.error (PyExc.serviceUnavailable
          ("Servicio " ++ failedBreaker.config.name ++ " no disponible"))) ∧
    (failedBreaker.config.recovery_time <
        (100 : ℚ) - failedBreaker.last_failure_time →
      (failedBreaker.call 100 (Except.ok (0 : Nat))).invoked = true ∧
      failedBreaker.call 100 (Except.ok (0 : Nat)) =
        CircuitBreaker.runOp { failedBreaker with status := ServiceStatus.recovering }
          100 (Except.ok (0 : Nat)))) :=
  ⟨rfl, c1_failed_gate failedBreaker 100 (Except.ok (0 : Nat)) rfl⟩

/-! ## C2 — failure path of `CircuitBreaker.call` -/

/-- C2: whenever the wrapped operation is invoked (a FAILED breaker has
passed its recovery gate) and raises `e`, the breaker increments
failure_count by one, stamps last_failure_time with the current time, goes
FAILED when the new count reaches max_failures and DEGRADED otherwise, and
re-raises exactly `e`. -/
theorem c2_failure_records_and_reraises {α : Type} (b : CircuitBreaker)
    (now : ℚ) (e : PyExc)
    (h : b.status = ServiceStatus.failed →
      b.config.recovery_time < now - b.last_failure_time) :
    (b.call now (Except.error e : Except PyExc α)).state.failure_count =
      b.failure_count + 1 ∧
    (b.call now (Except.error e : Except PyExc α)).state.last_failure_time = now ∧
    (b.call now (Except.error e : Except PyExc α)).state.status =
      (if b.config.max_failures ≤ b.failure_count + 1 then ServiceStatus.failed
       else ServiceStatus.degraded) ∧
    (b.call now (Except.error e : Except PyExc α)).result = Except.error e := by
  by_cases hb : b.status = ServiceStatus.failed
  · have hgt : now - b.last_failure_time > b.config.recovery_time := h hb
    simp [CircuitBreaker.call, hb, hgt, CircuitBreaker.runOp]
  · simp [CircuitBreaker.call, hb, CircuitBreaker.runOp]

/-- C2 witness: a fresh `anthropic` breaker whose operation raises a
`ValueError`. -/
theorem c2_failure_witness :
    ((CircuitBreaker.init anthropicConfig).call 5
        (Except.error (PyExc.other "ValueError" "boom") : Except PyExc Nat)).state.failure_count =
      (CircuitBreaker.init anthropicConfig).failure_count + 1 ∧
    ((CircuitBreaker.init anthropicConfig).call 5
        (Except.error (PyExc.other "ValueError" "boom") : Except PyExc Nat)).state.last_failure_time = 5 ∧
    ((CircuitBreaker.init anthropicConfig).call 5
        (Except.error (PyExc.other "ValueError" "boom") : Except PyExc Nat)).state.status =
      (if (CircuitBreaker.init anthropicConfig).config.max_failures ≤
          (CircuitBreaker.init anthropicConfig).failure_count + 1 then ServiceStatus.failed
       else ServiceStatus.degraded) ∧
    ((CircuitBreaker.init anthropicConfig).call 5
        (Except.error (PyExc.other "ValueError" "boom") : Except PyExc Nat)).result =
      Except.error (PyExc.other "ValueError" "boom") :=
  c2_failure_records_and_reraises (CircuitBreaker.init anthropicConfig) 5
    (PyExc.other "ValueError" "boom") (fun hf => absurd hf (by decide))

/-! ## C3 — reachable-state invariant of the breaker -/

/-- Breaker states reachable from construction (`__init__`, also what
`register_service` produces) by any sequence of calls (with the wrapped
operation succeeding or failing arbitrarily) and of
`mark_service_unavailable` trips.  The result value of a call is
irrelevant to the state, so operations are taken over `Unit`. -/
inductive CircuitBreakerReachable : CircuitBreaker → Prop where
  | init (config : ServiceConfig) :
      CircuitBreakerReachable (CircuitBreaker.init config)
  | call (b : CircuitBreaker) (now : ℚ) (op : Except PyExc Unit) :
      CircuitBreakerReachable b →
      CircuitBreakerReachable ((b.call now op).state)
  | mark (b : CircuitBreaker) (now : ℚ) :
      CircuitBreakerReachable b →
      CircuitBreakerReachable (b.mark_unavailable now)

/-- After `runOp` the state satisfies the count/status invariant outright:
on success the count is 0 and the status HEALTHY, on failure the status is
FAILED only when the new count has reached max_failures. -/
theorem runOp_state_invariant {α : Type} (b : CircuitBreaker) (now : ℚ)
    (op : Except PyExc α) :
    ((CircuitBreaker.runOp b now op).state.status = ServiceStatus.healthy →
      (CircuitBreaker.runOp b now op).state.failure_count = 0) ∧
    ((CircuitBreaker.runOp b now op).state.status = ServiceStatus.failed →
      (CircuitBreaker.runOp b now op).state.config.max_failures ≤
        (CircuitBreaker.runOp b now op).state.failure_count) := by
  cases op with
  | ok a => simp [CircuitBreaker.runOp]
  | error e =>
      by_cases hm : b.config.max_failures ≤ b.failure_count + 1 <;>
        simp [CircuitBreaker.runOp, hm]

/-- C3: in every reachable breaker state, failure_count is 0 whenever the
status is HEALTHY, and failure_count ≥ max_failures whenever the status is
FAILED. -/
theorem c3_reachable_invariant (b : CircuitBreaker)
    (h : CircuitBreakerReachable b) :
    (b.status = ServiceStatus.healthy → b.failure_count = 0) ∧
    (b.status = ServiceStatus.failed →
      b.config.max_failures ≤ b.failure_count) := by
  induction h with
  | init config => simp [CircuitBreaker.init]
  | call b now op hb ih =>
      by_cases hs : b.status = ServiceStatus.failed
      · by_cases hg : now - b.last_failure_time > b.config.recovery_time
        · have hcall : b.call now op =
              CircuitBreaker.runOp { b with status := ServiceStatus.recovering }
                now op := by
            simp [CircuitBreaker.call, hs, hg]
          rw [hcall]
          exact runOp_state_invariant
            { b with status := ServiceStatus.recovering } now op
        · have hcall : (b.call now op).state = b := by
            simp [CircuitBreaker.call, hs, hg]
          rw [hcall]
          exact ih
      · have hcall : b.call now op = CircuitBreaker.runOp b now op := by
          simp [CircuitBreaker.call, hs]
        rw [hcall]
        exact runOp_state_invariant b now op
  | mark b now hb ih =>
      simp [CircuitBreaker.mark_unavailable]

/-- C3 witness: the invariant at the freshly constructed `anthropic`
breaker, after an administrative trip at time 7. -/
theorem c3_reachable_invariant_witness :
    (((CircuitBreaker.init anthropicConfig).mark_unavailable 7).status =
        ServiceStatus.healthy →
      ((CircuitBreaker.init anthropicConfig).mark_unavailable 7).failure_count = 0) ∧
    (((CircuitBreaker.init anthropicConfig).mark_unavailable 7).status =
        ServiceStatus.failed →
      ((CircuitBreaker.init anthropicConfig).mark_unavailable 7).config.max_failures ≤
        ((CircuitBreaker.init anthropicConfig).mark_unavailable 7).failure_count) :=
  c3_reachable_invariant ((CircuitBreaker.init anthropicConfig).mark_unavailable 7)
    (CircuitBreakerReachable.mark (CircuitBreaker.init anthropicConfig) 7
      (CircuitBreakerReachable.init anthropicConfig))

/-! ## C4 — `can_operate_in_degraded_mode` -/

/-- The availability condition exactly as the claim words it: registry
empty, or some registered service with a non-FAILED status (HEALTHY,
DEGRADED or RECOVERING), or some registered service with a fallback. -/
def can_operate_claimed (services : List (String × CircuitBreaker))
    (fallback_handlers : List String) : Prop :=
  services = [] ∨
  (∃ p ∈ services, p.2.status ≠ ServiceStatus.failed) ∨
  (∃ p ∈ services, p.1 ∈ fallback_handlers)

/-- An `anthropic` breaker currently in RECOVERING. -/
def recoveringBreaker : CircuitBreaker :=
  { config := anthropicConfig
    failure_count := 3
    last_failure_time := 0
    status := ServiceStatus.recovering }

/-- C4 counterexample: a registry holding one RECOVERING service with no
fallback satisfies the claim's condition (RECOVERING is non-FAILED), yet
the code returns false — line 107 counts only HEALTHY and DEGRADED as
available. -/
theorem c4_recovering_counterexample :
    can_operate_in_degraded_mode [("anthropic", recoveringBreaker)] [] = false ∧
    can_operate_claimed [("anthropic", recoveringBreaker)] [] := by
  constructor
  · decide
  · refine Or.inr (Or.inl ⟨("anthropic", recoveringBreaker), ?_, ?_⟩) <;> decide

/-- C4 (amended): `can_operate_in_degraded_mode` returns true iff the
registry is empty, or at least one registered service has status HEALTHY
or DEGRADED, or at least one registered service has a fallback registered
(a RECOVERING service with no fallback does not count); in particular with
an empty registry it returns true. -/
theorem c4_can_operate_iff (services : List (String × CircuitBreaker))
    (fallback_handlers : List String) :
    can_operate_in_degraded_mode services fallback_handlers = true ↔
      (services = [] ∨
        ∃ p ∈ services,
          (p.2.status = ServiceStatus.healthy ∨
           p.2.status = ServiceStatus.degraded ∨
           p.1 ∈ fallback_handlers)) := by
  by_cases hs : services = []
  · simp [can_operate_in_degraded_mode, hs]
  · have hpos : can_operate_in_degraded_mode services fallback_handlers = true ↔
        0 < services.countP (fun p =>
          (p.2.status == ServiceStatus.healthy ||
           p.2.status == ServiceStatus.degraded ||
           fallback_handlers.contains p.1)) := by
      simp [can_operate_in_degraded_mode, hs]
    rw [hpos, List.countP_pos_iff]
    simp [hs, or_assoc]

/-! ## C5/C6 — ErrorCollector buffer and counter lemmas -/

/-- Unfolding one `add_error` out of `add_all`. -/
theorem ErrorCollector.add_all_cons (c : ErrorCollector) (r : ErrorRecord)
    (l : List ErrorRecord) :
    c.add_all (r :: l) = (c.add_error r).add_all l := rfl

/-- After any insertion sequence the detail buffer is exactly the suffix of
the full insertion stream that fits the capacity (oldest evicted first). -/
theorem ErrorCollector.add_all_errors (l : List ErrorRecord) :
    ∀ c : ErrorCollector, c.errors.length ≤ c.max_errors →
    (c.add_all l).errors =
      (c.errors ++ l).drop (c.errors.length + l.length - c.max_errors) := by
  induction l with
  | nil =>
      intro c h
      have h0 : c.errors.length - c.max_errors = 0 := by omega
      simp [ErrorCollector.add_all, h0]
  | cons r l ih =>
      intro c h
      rw [ErrorCollector.add_all_cons]
      by_cases hlt : c.max_errors < c.errors.length + 1
      · have hlen : c.errors.length = c.max_errors := by omega
        have hstep : (c.add_error r).errors = (c.errors ++ [r]).tail := by
          simp [ErrorCollector.add_error, hlt]
        have hmax : (c.add_error r).max_errors = c.max_errors := rfl
        have htl : (c.errors ++ [r]).tail.length = c.max_errors := by
          rw [List.length_tail]
          simp [hlen]
        have hle2 : (c.add_error r).errors.length ≤ (c.add_error r).max_errors := by
          rw [hstep, hmax, htl]
        rw [ih (c.add_error r) hle2, hstep, hmax, htl]
        have hidx : c.max_errors + l.length - c.max_errors = l.length := by omega
        have hidx2 : c.errors.length + (r :: l).length - c.max_errors =
            1 + l.length := by
          simp only [List.length_cons]
          omega
        rw [hidx, hidx2, ← List.drop_one (c.errors ++ [r]),
          ← List.drop_append_of_le_length (by simp), List.drop_drop,
          List.append_assoc, List.singleton_append]
      · have hstep : (c.add_error r).errors = c.errors ++ [r] := by
          simp [ErrorCollector.add_error, hlt]
        have hmax : (c.add_error r).max_errors = c.max_errors := rfl
        have hap : (c.errors ++ [r]).length = c.errors.length + 1 := by simp
        have hle2 : (c.add_error r).errors.length ≤ (c.add_error r).max_errors := by
          rw [hstep, hmax, hap]
          omega
        rw [ih (c.add_error r) hle2, hstep, hmax, hap]
        have hidx : c.errors.length + 1 + l.length - c.max_errors =
            c.errors.length + (r :: l).length - c.max_errors := by
          simp only [List.length_cons]
          omega
        rw [hidx, List.append_assoc, List.singleton_append]

/-- Bumping one key of the counter dict adds one to that key's value and
leaves every other key's value unchanged. -/
theorem countValue_bumpCount (m : List (String × Nat)) (ty t : String) :
    countValue (bumpCount m ty) t =
      countValue m t + (if t = ty then 1 else 0) := by
  induction m with
  | nil =>
      by_cases hc : t = ty
      · subst hc
        simp [bumpCount, countValue, List.lookup]
      · have hbe : (t == ty) = false := beq_eq_false_iff_ne.mpr hc
        simp [bumpCount, countValue, List.lookup, hc, hbe]
  | cons p rest ih =>
      obtain ⟨k, v⟩ := p
      by_cases hk : k = ty
      · subst hk
        by_cases hc : t = k
        · subst hc
          simp [bumpCount, countValue, List.lookup]
        · have hbe : (t == k) = false := beq_eq_false_iff_ne.mpr hc
          simp [bumpCount, countValue, List.lookup, hc, hbe]
      · by_cases hc : t = k
        · subst hc
          have hbe : (t == t) = true := beq_self_eq_true t
          simp [bumpCount, countValue, List.lookup, hk, hbe, Ne.symm hk]
        · have hbe : (t == k) = false := beq_eq_false_iff_ne.mpr hc
          simpa [bumpCount, countValue, List.lookup, hk, hbe] using ih

/-- The per-type counters are cumulative: after any insertion sequence the
counter for `t` is the number of inserted records of type `t`. -/
theorem ErrorCollector.add_all_counts (l : List ErrorRecord) :
    ∀ (c : ErrorCollector) (t : String),
    countValue (c.add_all l).error_counts t =
      countValue c.error_counts t + l.countP (fun r => r.type == t) := by
  induction l with
  | nil =>
      intro c t
      simp [ErrorCollector.add_all]
  | cons r l ih =>
      intro c t
      rw [ErrorCollector.add_all_cons, ih]
      have hcnt : (c.add_error r).error_counts = bumpCount c.error_counts r.type :=
        rfl
      rw [hcnt, countValue_bumpCount, List.countP_cons]
      by_cases hc : t = r.type
      · subst hc
        simp only [beq_self_eq_true, if_pos rfl, if_true]
        omega
      · have hbe : (r.type == t) = false := beq_eq_false_iff_ne.mpr (Ne.symm hc)
        simp [hc, hbe]

/-! ## C5 — FIFO buffer bound with cumulative counters -/

/-- A concrete error record for witnesses. -/
def sampleRecord : ErrorRecord :=
  { timestamp := "2025-01-01T00:00:00"
    type := "ValueError"
    message := "boom"
    context := ""
    traceback := none
    error_code := none
    details := none }

/-- C5: inserting 1000+N errors into a fresh collector of capacity 1000
leaves exactly 1000 records in the detail buffer — the oldest N evicted
first, so the buffer is the stream minus its first N records — while every
per-type counter equals the true number of inserted errors of that type,
eviction never decrementing it. -/
theorem c5_buffer_capacity_and_counts (N : Nat) (l : List ErrorRecord)
    (h : l.length = 1000 + N) :
    ((ErrorCollector.init 1000).add_all l).errors.length = 1000 ∧
    ((ErrorCollector.init 1000).add_all l).errors = l.drop N ∧
    ∀ t : String,
      countValue ((ErrorCollector.init 1000).add_all l).error_counts t =
        l.countP (fun r => r.type == t) := by
  have hle : (ErrorCollector.init 1000).errors.length ≤
      (ErrorCollector.init 1000).max_errors := by
    simp [ErrorCollector.init]
  have hbuf := ErrorCollector.add_all_errors l (ErrorCollector.init 1000) hle
  have h1 : (ErrorCollector.init 1000).errors = [] := rfl
  have h2 : (ErrorCollector.init 1000).max_errors = 1000 := rfl
  rw [h1, h2] at hbuf
  simp only [List.nil_append, List.length_nil, Nat.zero_add] at hbuf
  have hN : l.length - 1000 = N := by omega
  refine ⟨?_, ?_, ?_⟩
  · rw [hbuf, List.length_drop]
    omega
  · rw [hbuf, hN]
  · intro t
    have hc := ErrorCollector.add_all_counts l (ErrorCollector.init 1000) t
    simpa [ErrorCollector.init, countValue, List.lookup] using hc

/-- C5 witness: 1001 identical records into a fresh collector. -/
theorem c5_buffer_capacity_witness :
    (List.replicate (1000 + 1) sampleRecord).length = 1000 + 1 ∧
    (((ErrorCollector.init 1000).add_all
        (List.replicate (1000 + 1) sampleRecord)).errors.length = 1000 ∧
     ((ErrorCollector.init 1000).add_all
        (List.replicate (1000 + 1) sampleRecord)).errors =
       (List.replicate (1000 + 1) sampleRecord).drop 1 ∧
     ∀ t : String,
       countValue ((ErrorCollector.init 1000).add_all
           (List.replicate (1000 + 1) sampleRecord)).error_counts t =
         (List.replicate (1000 + 1) sampleRecord).countP
           (fun r => r.type == t)) :=
  ⟨by rw [List.length_replicate], c5_buffer_capacity_and_counts 1
    (List.replicate (1000 + 1) sampleRecord) (by rw [List.length_replicate])⟩

/-- Buffer length after any insertion sequence into a fresh collector of
capacity 1000. -/
theorem ErrorCollector.add_all_init_length (l : List ErrorRecord) :
    ((ErrorCollector.init 1000).add_all l).errors.length =
      l.length - (l.length - 1000) := by
  have hle : (ErrorCollector.init 1000).errors.length ≤
      (ErrorCollector.init 1000).max_errors := by
    simp [ErrorCollector.init]
  have hbuf := ErrorCollector.add_all_errors l (ErrorCollector.init 1000) hle
  have h1 : (ErrorCollector.init 1000).errors = [] := rfl
  have h2 : (ErrorCollector.init 1000).max_errors = 1000 := rfl
  rw [h1, h2] at hbuf
  simp only [List.nil_append, List.length_nil, Nat.zero_add] at hbuf
  rw [hbuf, List.length_drop]

/-! ## C6 — `get_error_summary` -/

/-- C6 counterexample: after 1001 insertions the summary reports 1000 as
its total error count (line 182, `len(self.errors)`), not the cumulative
1001 the claim promises. -/
theorem c6_total_capped_counterexample :
    ((ErrorCollector.init 1000).add_all
        (List.replicate 1001 sampleRecord)).get_error_summary.total_errors =
      1000 ∧
    (1000 : Nat) ≠ 1001 := by
  have htot : ∀ c : ErrorCollector,
      c.get_error_summary.total_errors = c.errors.length := fun _ => rfl
  constructor
  · rw [htot, ErrorCollector.add_all_init_length, List.length_replicate]
  · decide

/-- C6 (amended): `get_error_summary` reports as its total the number of
records currently held in the detail buffer — equal to the cumulative
number added only while that is at most the capacity 1000, and capped at
1000 thereafter — together with the cumulative per-type counts and the 10
most recent detailed records. -/
theorem c6_summary_shape (l : List ErrorRecord) :
    ((ErrorCollector.init 1000).add_all l).get_error_summary.total_errors =
      min l.length 1000 ∧
    (∀ t : String,
      countValue
        ((ErrorCollector.init 1000).add_all l).get_error_summary.error_counts
        t = l.countP (fun r => r.type == t)) ∧
    ((ErrorCollector.init 1000).add_all l).get_error_summary.recent_errors =
      l.drop (l.length - 10) := by
  have hle : (ErrorCollector.init 1000).errors.length ≤
      (ErrorCollector.init 1000).max_errors := by
    simp [ErrorCollector.init]
  have hbuf := ErrorCollector.add_all_errors l (ErrorCollector.init 1000) hle
  have h1 : (ErrorCollector.init 1000).errors = [] := rfl
  have h2 : (ErrorCollector.init 1000).max_errors = 1000 := rfl
  rw [h1, h2] at hbuf
  simp only [List.nil_append, List.length_nil, Nat.zero_add] at hbuf
  have hlen : ((ErrorCollector.init 1000).add_all l).errors.length =
      l.length - (l.length - 1000) := by
    rw [hbuf, List.length_drop]
  refine ⟨?_, ?_, ?_⟩
  · show ((ErrorCollector.init 1000).add_all l).errors.length =
      min l.length 1000
    omega
  · intro t
    have hc := ErrorCollector.add_all_counts l (ErrorCollector.init 1000) t
    simpa [ErrorCollector.init, countValue, List.lookup] using hc
  · show (if ((ErrorCollector.init 1000).add_all l).errors = [] then []
        else ((ErrorCollector.init 1000).add_all l).errors.drop
          (((ErrorCollector.init 1000).add_all l).errors.length - 10)) =
      l.drop (l.length - 10)
    by_cases hl : l = []
    · subst hl
      simp [ErrorCollector.add_all, ErrorCollector.init]
    · have hlp : 0 < l.length := List.length_pos.mpr hl
      have hne : ((ErrorCollector.init 1000).add_all l).errors ≠ [] := by
        intro hcon
        have hcl := congrArg List.length hcon
        rw [hlen] at hcl
        simp at hcl
        omega
      rw [if_neg hne, hbuf, List.length_drop, List.drop_drop]
      have hidx : l.length - 1000 + (l.length - (l.length - 1000) - 10) =
          l.length - 10 := by omega
      rw [hidx]

/-! ## C7 — `_determine_health_status` thresholds -/

/-- C7: against the default thresholds, the derived status is "critical"
iff cpu≥90 or memory≥95 or disk≥95 or error_rate≥15 or response_time≥10;
otherwise "warning" iff cpu≥70 or memory≥80 or disk≥85 or error_rate≥5 or
response_time≥5; otherwise "healthy"; and the single-breached-metric
sample (95, 50, 10, 0, 0.1) is "critical". -/
theorem c7_status_thresholds (cpu memory disk error_rate response_time : ℚ) :
    (HealthMonitor.determine_health_status defaultThresholds cpu memory disk
        error_rate response_time = "critical" ↔
      (cpu ≥ 90 ∨ memory ≥ 95 ∨ disk ≥ 95 ∨ error_rate ≥ 15 ∨
        response_time ≥ 10)) ∧
    (HealthMonitor.determine_health_status defaultThresholds cpu memory disk
        error_rate response_time = "warning" ↔
      (¬(cpu ≥ 90 ∨ memory ≥ 95 ∨ disk ≥ 95 ∨ error_rate ≥ 15 ∨
          response_time ≥ 10) ∧
       (cpu ≥ 70 ∨ memory ≥ 80 ∨ disk ≥ 85 ∨ error_rate ≥ 5 ∨
          response_time ≥ 5))) ∧
    (HealthMonitor.determine_health_status defaultThresholds cpu memory disk
        error_rate response_time = "healthy" ↔
      (¬(cpu ≥ 90 ∨ memory ≥ 95 ∨ disk ≥ 95 ∨ error_rate ≥ 15 ∨
          response_time ≥ 10) ∧
       ¬(cpu ≥ 70 ∨ memory ≥ 80 ∨ disk ≥ 85 ∨ error_rate ≥ 5 ∨
          response_time ≥ 5))) ∧
    HealthMonitor.determine_health_status defaultThresholds 95 50 10 0
      (1 / 10) = "critical" := by
  have hcw : ("critical" : String) ≠ "warning" := by decide
  have hch : ("critical" : String) ≠ "healthy" := by decide
  have hwc : ("warning" : String) ≠ "critical" := by decide
  have hwh : ("warning" : String) ≠ "healthy" := by decide
  have hhc : ("healthy" : String) ≠ "critical" := by decide
  have hhw : ("healthy" : String) ≠ "warning" := by decide
  have hscen : HealthMonitor.determine_health_status defaultThresholds 95 50
      10 0 (1 / 10) = "critical" := by
    norm_num [HealthMonitor.determine_health_status, defaultThresholds]
  refine ⟨?_, ?_, ?_, hscen⟩ <;>
  · simp only [HealthMonitor.determine_health_status, defaultThresholds]
    split_ifs with h1 h2 <;> simp_all

/-! ## C8 — failure branch of `collect_metrics` -/

/-- C8 counterexample: the sample produced when a metrics source raises has
`error_rate = 100.0` (line 170), not the zero the claim lists among the
zeroed fields. -/
theorem c8_error_rate_counterexample :
    ((HealthMonitor.init 30).collect_metrics "t0"
        (Except.error "boom")).error_rate = 100 ∧
    (100 : ℚ) ≠ 0 := by
  constructor
  · rfl
  · norm_num

/-- C8 (amended): when any metrics source raises, `collect_metrics`
returns (instead of propagating) a sample with status "critical" whose
metric fields are all zeroed except `error_rate`, which is forced to
100.0; and a monitoring-loop iteration appends exactly that sample to the
health history and carries on. -/
theorem c8_failure_sample (m : HealthMonitor) (ts e : String)
    (h : 0 < m.max_history) :
    (m.collect_metrics ts (Except.error e)).status = "critical" ∧
    (m.collect_metrics ts (Except.error e)).cpu_percent = 0 ∧
    (m.collect_metrics ts (Except.error e)).memory_percent = 0 ∧
    (m.collect_metrics ts (Except.error e)).memory_available_mb = 0 ∧
    (m.collect_metrics ts (Except.error e)).disk_usage_percent = 0 ∧
    (m.collect_metrics ts (Except.error e)).uptime_seconds = 0 ∧
    (m.collect_metrics ts (Except.error e)).active_connections = 0 ∧
    (m.collect_metrics ts (Except.error e)).api_response_time_avg = 0 ∧
    (m.collect_metrics ts (Except.error e)).error_rate = 100 ∧
    (m.monitoring_step ts (Except.error e)).health_history.getLast? =
      some (m.collect_metrics ts (Except.error e)) := by
  refine ⟨rfl, rfl, rfl, rfl, rfl, rfl, rfl, rfl, rfl, ?_⟩
  show (if m.max_history <
        (m.health_history ++ [m.collect_metrics ts (Except.error e)]).length
      then (m.health_history ++ [m.collect_metrics ts (Except.error e)]).tail
      else m.health_history ++ [m.collect_metrics ts (Except.error e)]).getLast? =
    some (m.collect_metrics ts (Except.error e))
  by_cases hif : m.max_history <
      (m.health_history ++ [m.collect_metrics ts (Except.error e)]).length
  · rw [if_pos hif]
    cases hh : m.health_history with
    | nil =>
        exfalso
        rw [hh] at hif
        simp at hif
        omega
    | cons a t =>
        rw [List.cons_append, List.tail_cons]
        exact List.getLast?_concat t
  · rw [if_neg hif]
    exact List.getLast?_concat m.health_history

/-- C8 witness: the amended theorem at a freshly initialised monitor. -/
theorem c8_failure_sample_witness :
    0 < (HealthMonitor.init 30).max_history ∧
    (((HealthMonitor.init 30).collect_metrics "t0"
        (Except.error "boom")).status = "critical" ∧
     ((HealthMonitor.init 30).collect_metrics "t0"
        (Except.error "boom")).cpu_percent = 0 ∧
     ((HealthMonitor.init 30).collect_metrics "t0"
        (Except.error "boom")).memory_percent = 0 ∧
     ((HealthMonitor.init 30).collect_metrics "t0"
        (Except.error "boom")).memory_available_mb = 0 ∧
     ((HealthMonitor.init 30).collect_metrics "t0"
        (Except.error "boom")).disk_usage_percent = 0 ∧
     ((HealthMonitor.init 30).collect_metrics "t0"
        (Except.error "boom")).uptime_seconds = 0 ∧
     ((HealthMonitor.init 30).collect_metrics "t0"
        (Except.error "boom")).active_connections = 0 ∧
     ((HealthMonitor.init 30).collect_metrics "t0"
        (Except.error "boom")).api_response_time_avg = 0 ∧
     ((HealthMonitor.init 30).collect_metrics "t0"
        (Except.error "boom")).error_rate = 100 ∧
     ((HealthMonitor.init 30).monitoring_step "t0"
        (Except.error "boom")).health_history.getLast? =
       some ((HealthMonitor.init 30).collect_metrics "t0"
         (Except.error "boom"))) :=
  ⟨by decide, c8_failure_sample (HealthMonitor.init 30) "t0" "boom" (by decide)⟩

/-! ## C9 — `record_api_call` streaming mean -/

/-- Looking up the key just written by `setEntry` yields the new value. -/
theorem lookup_setEntry_self {β : Type} (l : List (String × β)) (k : String)
    (v : β) : (setEntry l k v).lookup k = some v := by
  induction l with
  | nil => simp [setEntry, List.lookup]
  | cons p rest ih =>
      obtain ⟨k0, v0⟩ := p
      by_cases hk : k0 = k
      · subst hk
        simp [setEntry, List.lookup]
      · have hbe : (k == k0) = false := beq_eq_false_iff_ne.mpr (Ne.symm hk)
        simp [setEntry, List.lookup, hk, hbe, ih]

/-- C9: for a service already tracked with metrics `a0`, `record_api_call`
stores metrics whose call count is `a0.total_calls + 1` and whose running
average satisfies `avg = (old_avg*(n-1) + duration)/n` with `n` the
post-increment count; and three calls with durations 2, 4, 6 on a fresh
monitor leave `avg_response_time` exactly 4. -/
theorem c9_streaming_mean :
    (∀ (m : HealthMonitor) (service : String) (success : Bool)
        (response_time : ℚ) (error : Option String) (now_iso : String)
        (a0 : APIMetrics),
      m.api_metrics.lookup service = some a0 →
      ∃ a1 : APIMetrics,
        (m.record_api_call service success response_time error
            now_iso).api_metrics.lookup service = some a1 ∧
        a1.total_calls = a0.total_calls + 1 ∧
        a1.avg_response_time =
          (a0.avg_response_time * ((a1.total_calls : ℚ) - 1) + response_time)
            / (a1.total_calls : ℚ)) ∧
    Option.map APIMetrics.avg_response_time
      (((((HealthMonitor.init 30).record_api_call "claude" true 2 none
          "t1").record_api_call "claude" true 4 none
          "t2").record_api_call "claude" true 6 none
          "t3").api_metrics.lookup "claude") = some 4 := by
  constructor
  · intro m service success response_time error now_iso a0 hlook
    cases success with
    | true =>
        simp only [HealthMonitor.record_api_call, hlook, if_true]
        refine ⟨_, lookup_setEntry_self _ _ _, rfl, ?_⟩
        simp only [Nat.add_sub_cancel]
        push_cast
        ring_nf
    | false =>
        simp only [HealthMonitor.record_api_call, hlook, if_false]
        refine ⟨_, lookup_setEntry_self _ _ _, rfl, ?_⟩
        simp only [Nat.add_sub_cancel]
        push_cast
        ring_nf
  · norm_num [HealthMonitor.record_api_call, HealthMonitor.init, setEntry,
      List.lookup]

/-- An existing metrics row after two successful calls of durations 2 and
4 (running average 3). -/
def claudeMetrics : APIMetrics :=
  { service_name := "claude"
    total_calls := 2
    successful_calls := 2
    failed_calls := 0
    avg_response_time := 3
    last_error := none
    last_success := "t2" }

/-- A monitor already tracking `claude`. -/
def claudeMonitor : HealthMonitor :=
  { check_interval := 30
    error_collector := ErrorCollector.init 1000
    api_metrics := [("claude", claudeMetrics)]
    health_history := []
    max_history := 100
    thresholds := defaultThresholds }

/-- C9 witness: the streaming-mean law applied to `claudeMonitor` for a
third call of duration 6. -/
theorem c9_streaming_mean_witness :
    claudeMonitor.api_metrics.lookup "claude" = some claudeMetrics ∧
    (∃ a1 : APIMetrics,
      (claudeMonitor.record_api_call "claude" true 6 none
          "t3").api_metrics.lookup "claude" = some a1 ∧
      a1.total_calls = claudeMetrics.total_calls + 1 ∧
      a1.avg_response_time =
        (claudeMetrics.avg_response_time * ((a1.total_calls : ℚ) - 1) + 6)
          / (a1.total_calls : ℚ)) :=
  ⟨by decide, c9_streaming_mean.1 claudeMonitor "claude" true 6 none "t3"
    claudeMetrics (by decide)⟩

/-! ## C10 — `call_service` when the operation itself raises SUE -/

/-- Whenever the gate lets the operation run and it raises `e`, the whole
of `CircuitBreaker.call` is the failure-recording update (the transient
RECOVERING status is overwritten by the recorded one). -/
theorem call_error_eq {α : Type} (b : CircuitBreaker) (now : ℚ) (e : PyExc)
    (h : b.status = ServiceStatus.failed →
      b.config.recovery_time < now - b.last_failure_time) :
    b.call now (Except.error e : Except PyExc α) =
      { result := Except.error e
        state := { b with
          failure_count := b.failure_count + 1
          last_failure_time := now
          status := if b.config.max_failures ≤ b.failure_count + 1
                    then ServiceStatus.failed else ServiceStatus.degraded }
        invoked := true } := by
  by_cases hb : b.status = ServiceStatus.failed
  · have hgt : now - b.last_failure_time > b.config.recovery_time := h hb
    simp [CircuitBreaker.call, hb, hgt, CircuitBreaker.runOp]
  · simp [CircuitBreaker.call, hb, CircuitBreaker.runOp]

/-- C10: when the wrapped operation for a registered service itself raises
`ServiceUnavailableError` (the breaker is not short-circuiting), the
manager returns the registered per-service fallback result whenever a
fallback exists — with no regard to `fallback_enabled` — and the stored
breaker has recorded the failure: count incremented, last_failure_time
stamped, status FAILED when the new count reaches max_failures and
DEGRADED otherwise. -/
theorem c10_fallback_on_operation_sue {α : Type}
    (services : List (String × CircuitBreaker))
    (fallback_handlers : String → Option α) (service_name : String)
    (now : ℚ) (msg : String) (cb : CircuitBreaker) (fb : α)
    (hcb : services.lookup service_name = some cb)
    (hgate : cb.status = ServiceStatus.failed →
      cb.config.recovery_time < now - cb.last_failure_time)
    (hfb : fallback_handlers service_name = some fb) :
    (GracefulDegradation.call_service services fallback_handlers service_name
        now (Except.error (PyExc.serviceUnavailable msg))).2 =
      SvcOutcome.usedFallback fb ∧
    ∃ cb1 : CircuitBreaker,
      (GracefulDegradation.call_service services fallback_handlers
          service_name now
          (Except.error (PyExc.serviceUnavailable msg))).1.lookup
          service_name = some cb1 ∧
      cb1.failure_count = cb.failure_count + 1 ∧
      cb1.last_failure_time = now ∧
      cb1.status = (if cb.config.max_failures ≤ cb.failure_count + 1
                    then ServiceStatus.failed else ServiceStatus.degraded) := by
  have hcall := @call_error_eq α cb now (PyExc.serviceUnavailable msg) hgate
  simp only [GracefulDegradation.call_service, hcb, hcall, hfb]
  exact ⟨trivial, ⟨_, lookup_setEntry_self _ _ _, rfl, rfl, rfl⟩⟩

/-- A config with fallbacks disabled, to witness that the SUE path ignores
`fallback_enabled`. -/
def strictConfig : ServiceConfig :=
  { name := "anthropic"
    max_failures := 3
    failure_window := 300
    recovery_time := 60
    fallback_enabled := false }

/-- Fresh breaker over `strictConfig`. -/
def strictBreaker : CircuitBreaker := CircuitBreaker.init strictConfig

/-- A fallback registry holding one handler for `anthropic` that returns
42. -/
def anthFallbacks : String → Option Nat :=
  fun s => if s = "anthropic" then some 42 else none

/-- C10 witness: a healthy `anthropic` breaker with `fallback_enabled`
false whose operation raises SUE; the fallback result 42 is returned and
the failure recorded. -/
theorem c10_fallback_on_operation_sue_witness :
    ([("anthropic", strictBreaker)].lookup "anthropic" = some strictBreaker ∧
     anthFallbacks "anthropic" = some 42) ∧
    ((GracefulDegradation.call_service [("anthropic", strictBreaker)]
        anthFallbacks "anthropic" 9
        (Except.error (PyExc.serviceUnavailable "gone"))).2 =
      SvcOutcome.usedFallback 42 ∧
    ∃ cb1 : CircuitBreaker,
      (GracefulDegradation.call_service [("anthropic", strictBreaker)]
          anthFallbacks "anthropic" 9
          (Except.error (PyExc.serviceUnavailable "gone"))).1.lookup
          "anthropic" = some cb1 ∧
      cb1.failure_count = strictBreaker.failure_count + 1 ∧
      cb1.last_failure_time = 9 ∧
      cb1.status = (if strictBreaker.config.max_failures ≤
            strictBreaker.failure_count + 1
          then ServiceStatus.failed else ServiceStatus.degraded)) :=
  ⟨⟨by decide, rfl⟩,
   c10_fallback_on_operation_sue [("anthropic", strictBreaker)] anthFallbacks
     "anthropic" 9 "gone" strictBreaker 42 (by decide)
     (fun hf => absurd hf (by decide)) rfl⟩

end Spec2Proof
